import Mathlib

/-!
Verification development for the desktop-assistant plugin.

This file embeds, as pure Lean functions, the parts of the plugin that the
spec's testable claims talk about:

* the WebSocket session manager's screenshot request/response correlation
  (`src/ws_handler.py`, `ClientManager.request_screenshot` and
  `ClientManager.handle_screenshot_response`),
* the screenshot store retention pass
  (`src/services/desktop_monitor.py`, `ScreenshotManager`),
* one iteration of the desktop monitor loop
  (`src/services/desktop_monitor.py`, `DesktopMonitorService._monitor_loop`),
* one pass of the scheduled / random proactive-dialogue checks
  (`src/services/proactive_dialog.py`),
* the cross-thread message bridge (`src/main.py`, `MessageBridge`),
* the settings-window save handler (`src/gui/settings_window.py`), and
* the standalone WebSocket server's send paths (`src/ws_server.py`).

Effects are made explicit: dictionaries become association lists, asyncio
futures become an explicit resolution state, wall-clock reads and random
draws become parameters, and the outcome of an awaited send becomes an
explicit outcome value.
-/

namespace DesktopAssistant

/-! ## Association-list helpers (Python dict semantics) -/

/-- Remove every binding for key `k` (Python `dict.pop(k, None)`; a dict has
at most one binding per key, so this is exact). -/
def eraseKey {β : Type} (l : List (String × β)) (k : String) : List (String × β) :=
  l.filter (fun kv => kv.1 != k)

/-- Bind key `k` to `v` (Python `d[k] = v`). -/
def insertKey {β : Type} (l : List (String × β)) (k : String) (v : β) :
    List (String × β) :=
  (k, v) :: eraseKey l k

/-! ## WebSocket session manager (`src/ws_handler.py`) -/

/-- `ScreenshotRequest` dataclass: a pending on-demand screenshot request. -/
structure ScreenshotRequest where
  request_id : String
  session_id : String
  created_at : Nat
  timeout : Nat
deriving Repr, DecidableEq

/-- `ScreenshotResponse` dataclass. -/
structure ScreenshotResponse where
  request_id : String
  session_id : String
  success : Bool
  image_base64 : Option String := none
  image_path : Option String := none
  error_message : Option String := none
  width : Option Nat := none
  height : Option Nat := none
  timestamp : Nat := 0
deriving Repr, DecidableEq

/-- Resolution state of an `asyncio.Future` awaiting a screenshot response. -/
inductive FutureState
  | unresolved
  | resolved (response : ScreenshotResponse)
deriving Repr, DecidableEq

/-- The mutable state of `ClientManager`: the live-connection table, the
pending-request table and the per-request futures (dicts keyed by
`session_id` resp. `request_id`). -/
structure ClientManagerState where
  active_connections : List String
  pending_screenshot_requests : List (String × ScreenshotRequest)
  screenshot_futures : List (String × FutureState)
deriving Repr, DecidableEq

/-- The fields read out of a `screenshot_response` payload dict via
`data.get(...)` in `handle_screenshot_response`. -/
structure ScreenshotResponseData where
  request_id : Option String := none
  success : Bool := false
  image_base64 : Option String := none
  error_message : Option String := none
  width : Option Nat := none
  height : Option Nat := none
deriving Repr, DecidableEq

/-- File path used when a successfully received base64 image is decoded and
saved: `screenshot_<request_id>_<epoch-ms>.png` under the remote-screenshots
directory. -/
def remote_screenshot_path (rid : String) (nowMs : Nat) : String :=
  "./temp/remote_screenshots/screenshot_" ++ rid ++ "_" ++ toString nowMs ++ ".png"

/-- `if future and not future.done(): future.set_result(response)` — a second
resolution attempt on an already-resolved future is skipped. -/
def resolveFutureOnce (f : FutureState) (r : ScreenshotResponse) : FutureState :=
  match f with
  | .unresolved => .resolved r
  | .resolved r0 => .resolved r0

/-- The `ScreenshotResponse` object constructed by
`handle_screenshot_response` from the payload dict.  `image_path` is
recorded only when the response is successful, carries inline image data and
the file write succeeds (`saveOk`). -/
def builtScreenshotResponse (session_id rid : String) (data : ScreenshotResponseData)
    (saveOk : Bool) (nowMs : Nat) : ScreenshotResponse :=
  { request_id := rid
    session_id := session_id
    success := data.success
    image_base64 := data.image_base64
    image_path :=
      if data.success && data.image_base64.isSome && saveOk then
        some (remote_screenshot_path rid nowMs)
      else none
    error_message := data.error_message
    width := data.width
    height := data.height
    timestamp := nowMs }

/-- `ClientManager.handle_screenshot_response`: look up the pending future by
the payload's `request_id`; a missing or unknown id returns `none` and leaves
the state untouched; otherwise the constructed response resolves the pending
future (at most once) and is returned. -/
def handle_screenshot_response (st : ClientManagerState) (session_id : String)
    (data : ScreenshotResponseData) (saveOk : Bool) (nowMs : Nat) :
    Option ScreenshotResponse × ClientManagerState :=
  match data.request_id with
  | none => (none, st)
  | some rid =>
    if rid = "" then (none, st)
    else if (List.lookup rid st.screenshot_futures).isNone then (none, st)
    else
      let response := builtScreenshotResponse session_id rid data saveOk nowMs
      let futures := st.screenshot_futures.map
        (fun kv => if kv.1 = rid then (kv.1, resolveFutureOnce kv.2 response) else kv)
      (some response, { st with screenshot_futures := futures })

/-- Outcome of awaiting the screenshot future with `asyncio.wait_for`:
the handler resolved it with a response, the wait timed out, or some other
exception was raised. -/
inductive AwaitOutcome
  | success (response : ScreenshotResponse)
  | timedOut
  | failed (msg : String)
deriving Repr, DecidableEq

/-- Body of `ClientManager.request_screenshot` once a target `session_id` has
been fixed: connectivity check, registration of the pending request and
future, the send (whose failure disconnects the session inside
`send_message`), the awaited outcome, and the `finally` cleanup that pops the
pending bookkeeping on every path. -/
def requestScreenshotGo (st : ClientManagerState) (sid rid : String)
    (created_at timeout : Nat) (sendOk : Bool) (outcome : AwaitOutcome) :
    ScreenshotResponse × ClientManagerState :=
  if st.active_connections.contains sid then
    let request : ScreenshotRequest :=
      { request_id := rid, session_id := sid, created_at := created_at, timeout := timeout }
    let stRegistered : ClientManagerState :=
      { st with
        pending_screenshot_requests :=
          insertKey st.pending_screenshot_requests rid request
        screenshot_futures := insertKey st.screenshot_futures rid FutureState.unresolved }
    let stSent : ClientManagerState :=
      if sendOk then stRegistered
      else { stRegistered with
             active_connections := stRegistered.active_connections.filter (· != sid) }
    let response : ScreenshotResponse :=
      match outcome with
      | .success r => r
      | .timedOut =>
        { request_id := rid, session_id := sid, success := false,
          error_message := some "截图请求超时" }
      | .failed msg =>
        { request_id := rid, session_id := sid, success := false,
          error_message := some msg }
    (response,
      { stSent with
        pending_screenshot_requests := eraseKey stSent.pending_screenshot_requests rid
        screenshot_futures := eraseKey stSent.screenshot_futures rid })
  else
    ({ request_id := "", session_id := sid, success := false,
       error_message := some ("客户端未连接: " ++ sid) }, st)

/-- `ClientManager.request_screenshot`: an absent `session_id` picks the
first connected client (or fails immediately when none is connected); the
fresh `request_id` and the awaited outcome are explicit parameters. -/
def request_screenshot (st : ClientManagerState) (sid? : Option String) (rid : String)
    (created_at timeout : Nat) (sendOk : Bool) (outcome : AwaitOutcome) :
    ScreenshotResponse × ClientManagerState :=
  match sid? with
  | none =>
    match st.active_connections with
    | [] =>
      ({ request_id := "", session_id := "", success := false,
         error_message := some "没有已连接的桌面客户端" }, st)
    | first :: _ => requestScreenshotGo st first rid created_at timeout sendOk outcome
  | some sid => requestScreenshotGo st sid rid created_at timeout sendOk outcome

/-! ## Screenshot store (`src/services/desktop_monitor.py`) -/

/-- A screenshot file on disk: its path and modification time (seconds). -/
structure ScreenshotFile where
  path : String
  mtime : Int
deriving Repr, DecidableEq

/-- `ScreenshotStorageConfig` dataclass. -/
structure ScreenshotStorageConfig where
  max_count : Nat := 20
  max_age_hours : Nat := 24
  save_dir : String := "./temp/screenshots"
deriving Repr, DecidableEq

/-- Insert a file into a list sorted by modification time descending. -/
def insertByMtimeDesc (f : ScreenshotFile) : List ScreenshotFile → List ScreenshotFile
  | [] => [f]
  | g :: gs => if g.mtime ≤ f.mtime then f :: g :: gs else g :: insertByMtimeDesc f gs

/-- `ScreenshotManager.get_screenshot_files`: the matching files sorted by
modification time, newest first (`sorted(files, key=getmtime, reverse=True)`). -/
def get_screenshot_files (files : List ScreenshotFile) : List ScreenshotFile :=
  files.foldr insertByMtimeDesc []

/-- `max_age_seconds = self.config.max_age_hours * 3600`. -/
def max_age_seconds (cfg : ScreenshotStorageConfig) : Int :=
  (cfg.max_age_hours : Int) * 3600

/-- `ScreenshotManager.cleanup_old_screenshots`, returning the paths removed
in one pass: everything past the `max_count` newest is removed
unconditionally (`files[max_count:]`), and among the `max_count` newest
(`files[:max_count]`) everything whose age exceeds `max_age_seconds` is
removed as well. -/
def cleanup_old_screenshots (cfg : ScreenshotStorageConfig)
    (allFiles : List ScreenshotFile) (now : Int) : List String :=
  let files := get_screenshot_files allFiles
  (files.drop cfg.max_count).map ScreenshotFile.path
    ++ ((files.take cfg.max_count).filter
          (fun f => max_age_seconds cfg < now - f.mtime)).map ScreenshotFile.path

/-! ## Desktop monitor loop (`src/services/desktop_monitor.py`) -/

/-- `DesktopState` dataclass (capture time in epoch seconds). -/
structure DesktopState where
  screenshot_path : String
  capture_time : Nat
  active_window : Option String := none
  window_title : Option String := none
  previous_window : Option String := none
  window_changed : Bool := false
deriving Repr, DecidableEq

/-- `DesktopMonitorService._capture_state`: a freshly captured state always
has `window_changed := False` and `previous_window := self._last_window_title`. -/
def capture_state (path : String) (t : Nat) (active title lastTitle : Option String) :
    DesktopState :=
  { screenshot_path := path, capture_time := t, active_window := active,
    window_title := title, previous_window := lastTitle, window_changed := false }

/-- The callbacks a monitor-loop iteration can fire, in firing order. -/
inductive MonitorCallback
  | windowChange
  | stateChange
deriving Repr, DecidableEq

/-- One iteration of `DesktopMonitorService._monitor_loop` after a successful
capture: compare the captured title with `_last_window_title`; on a
difference mark the state changed, record the previous title, update the
remembered title and fire the window-change callback (when registered)
before the general state-change callback (when registered).  Returns the
state as delivered to the callbacks, the new `_last_window_title`, and the
fired callbacks in order. -/
def monitorStep (lastTitle : Option String)
    (hasWindowChangeCb hasStateChangeCb : Bool) (st : DesktopState) :
    DesktopState × Option String × List MonitorCallback :=
  if lastTitle ≠ st.window_title then
    let st1 := { st with previous_window := lastTitle, window_changed := true }
    let cbs :=
      (if hasWindowChangeCb then [MonitorCallback.windowChange] else [])
        ++ (if hasStateChangeCb then [MonitorCallback.stateChange] else [])
    (st1, st.window_title, cbs)
  else
    (st, lastTitle, if hasStateChangeCb then [MonitorCallback.stateChange] else [])

/-! ## Proactive dialogue service (`src/services/proactive_dialog.py`) -/

/-- A `datetime.time`-style time of day. -/
structure TimeOfDay where
  hour : Nat
  minute : Nat
deriving Repr, DecidableEq

/-- A `datetime.datetime` as the scheduled loop uses it: its calendar date
(abstract day index, compared with `==` only) plus its time of day. -/
structure PyDateTime where
  date : Nat
  hour : Nat
  minute : Nat
deriving Repr, DecidableEq

/-- `ScheduledGreeting` dataclass. -/
structure ScheduledGreeting where
  time : TimeOfDay
  message_hint : String
  enabled : Bool := true
  last_triggered : Option PyDateTime := none
deriving Repr, DecidableEq

/-- Linear minutes-of-day of a greeting's scheduled time
(`greeting.time.hour * 60 + greeting.time.minute`). -/
def minutesOfDay (t : TimeOfDay) : Nat := t.hour * 60 + t.minute

/-- The ±1-minute eligibility window test of `_scheduled_trigger_loop`:
`abs(greeting_minutes - current_minutes) <= 1` over linear minutes-of-day. -/
def inTriggerWindow (g : ScheduledGreeting) (now : PyDateTime) : Bool :=
  ((minutesOfDay g.time : Int) - ((now.hour * 60 + now.minute : Nat) : Int)).natAbs ≤ 1

/-- Processing of one greeting in one pass of
`ProactiveDialogService._scheduled_trigger_loop`: disabled greetings are
skipped; inside the ±1-minute window a greeting already triggered today
(date-only comparison against `last_triggered`) is skipped; otherwise it
fires and `last_triggered` is set to `now`.  Returns whether a trigger fired
together with the updated greeting. -/
def scheduledCheckGreeting (g : ScheduledGreeting) (now : PyDateTime) :
    Bool × ScheduledGreeting :=
  if !g.enabled then (false, g)
  else if inTriggerWindow g now then
    match g.last_triggered with
    | some lt =>
      if lt.date = now.date then (false, g)
      else (true, { g with last_triggered := some now })
    | none => (true, { g with last_triggered := some now })
  else (false, g)

/-- Decision of one cycle of `_random_trigger_loop` after the random sleep:
`if random.random() > self.config.random_probability: continue` — the cycle
fires exactly when the uniform draw does not exceed the configured
probability. -/
def randomCycleFires (probability draw : ℚ) : Bool :=
  if probability < draw then false else true

/-! ## Cross-thread message bridge (`src/main.py`) -/

/-- `InputMessage` (GUI → adapter). -/
structure InputMessage where
  type : String
  content : String
  session_id : String
  timestamp : Nat := 0
deriving Repr, DecidableEq

/-- The bridge's input direction: messages already handed to the adapter by
`get_input`, the asyncio input queue, and the thread-safe input queue (all
front-of-list = front-of-queue). -/
structure BridgeState where
  delivered : List InputMessage
  asyncQ : List InputMessage
  threadQ : List InputMessage
deriving Repr, DecidableEq

/-- The fresh bridge before any message has moved. -/
def BridgeState.empty : BridgeState := ⟨[], [], []⟩

/-- Atomic events of the bridge's input direction: `put_input` from the GUI
thread, one drain step of `_bridge_input` (moving the head of the
thread-safe queue to the asyncio queue, or sleeping when empty), and one
`get_input` by the adapter (a no-op while the asyncio queue is empty, since
the coroutine merely suspends). -/
inductive BridgeOp
  | put (m : InputMessage)
  | bridgeStep
  | getInput
deriving Repr, DecidableEq

/-- Apply one bridge event to the state. -/
def applyOp (s : BridgeState) : BridgeOp → BridgeState
  | .put m => { s with threadQ := s.threadQ ++ [m] }
  | .bridgeStep =>
    match s.threadQ with
    | [] => s
    | m :: rest => { s with threadQ := rest, asyncQ := s.asyncQ ++ [m] }
  | .getInput =>
    match s.asyncQ with
    | [] => s
    | m :: rest => { s with asyncQ := rest, delivered := s.delivered ++ [m] }

/-- Run a sequence of bridge events. -/
def runOps (s : BridgeState) (ops : List BridgeOp) : BridgeState :=
  ops.foldl applyOp s

/-- The messages enqueued by the GUI side, in order. -/
def enqueuedOf (ops : List BridgeOp) : List InputMessage :=
  ops.filterMap (fun op =>
    match op with
    | .put m => some m
    | _ => none)

/-! ## Settings window save handler (`src/gui/settings_window.py`) -/

/-- The full configuration snapshot written by `_save_ui_to_config` (every
recognized option is overwritten from the UI controls, so the result is the
edited snapshot). -/
structure SettingsConfig where
  ball_size : Nat
  ball_opacity : ℚ
  avatar_path : String
  window_width : Nat
  window_height : Nat
  font_size : Nat
  enable_desktop_monitor : Bool
  monitor_interval : Nat
  max_screenshots : Nat
  screenshot_max_age_hours : Nat
  enable_proactive_dialog : Bool
  proactive_probability : ℚ
  proactive_min_interval : Nat
  proactive_max_interval : Nat
  window_change_enabled : Bool
  window_change_probability : ℚ
  scheduled_greetings_enabled : Bool
  enable_tts : Bool
  auto_play_voice : Bool
deriving Repr, DecidableEq

/-- Observable state of the settings window around `_on_save`: the stored
configuration, the emissions of the `settings_saved` signal, the invocations
of the external `on_settings_changed` callback (recorded only when a
callback is registered), the warning dialogs shown, and whether the dialog
was accepted. -/
structure SettingsWindowState where
  config : SettingsConfig
  hasCallback : Bool
  savedSignals : List SettingsConfig := []
  callbackCalls : List SettingsConfig := []
  warnings : Nat := 0
  accepted : Bool := false
deriving Repr, DecidableEq

/-- `SettingsWindow._on_save` with the edited snapshot `ui` (the spinbox
values validated first are the snapshot's interval fields): when
`proactive_min_interval >= proactive_max_interval` a warning dialog is shown
and nothing else happens; otherwise the snapshot replaces the stored config,
the `settings_saved` signal fires with it, the callback (when registered)
receives the same snapshot, and the dialog is accepted. -/
def on_save (st : SettingsWindowState) (ui : SettingsConfig) : SettingsWindowState :=
  if ui.proactive_max_interval ≤ ui.proactive_min_interval then
    { st with warnings := st.warnings + 1 }
  else
    { st with
      config := ui
      savedSignals := st.savedSignals ++ [ui]
      callbackCalls :=
        if st.hasCallback then st.callbackCalls ++ [ui] else st.callbackCalls
      accepted := true }

/-! ## Standalone WebSocket server (`src/ws_server.py`) and
`ClientManager.send_message` (`src/ws_handler.py`) -/

/-- `StandaloneWebSocketServer` connection table: `session_id` mapped to
whether a send on that transport succeeds (`_send_json` returns `True` on
success and `False` when the send raised). -/
structure StandaloneServerState where
  connections : List (String × Bool)
deriving Repr, DecidableEq

/-- `StandaloneWebSocketServer.send_to_client`: an unknown session returns
failure; otherwise the result of `_send_json` is returned.  The connection
table is not modified on either path. -/
def send_to_client (st : StandaloneServerState) (sid : String) :
    Bool × StandaloneServerState :=
  match List.lookup sid st.connections with
  | none => (false, st)
  | some ok => (ok, st)

/-- The iteration of `StandaloneWebSocketServer.broadcast` over a snapshot of
the connection items: each failing send pops that session from the live
table, each successful send bumps the success count. -/
def broadcastGo : List (String × Bool) → StandaloneServerState → Nat →
    Nat × StandaloneServerState
  | [], st, n => (n, st)
  | (sid, ok) :: rest, st, n =>
    if ok then broadcastGo rest st (n + 1)
    else broadcastGo rest { st with connections := eraseKey st.connections sid } n

/-- `StandaloneWebSocketServer.broadcast`: returns the number of successful
sends and the connection table with every failing session deregistered. -/
def broadcast (st : StandaloneServerState) : Nat × StandaloneServerState :=
  broadcastGo st.connections st 0

/-- `ClientManager.send_message` connection effect, over a table annotated
with transport health: an unknown session is a logged no-op; a send failure
calls `disconnect(session_id)`, removing the session. -/
def send_message_conns (conns : List (String × Bool)) (sid : String) :
    List (String × Bool) :=
  match List.lookup sid conns with
  | none => conns
  | some ok => if ok then conns else eraseKey conns sid

/-! ## Association-list lemmas -/

theorem lookup_cons {β : Type} (k a : String) (b : β) (l : List (String × β)) :
    List.lookup k ((a, b) :: l) = if k = a then some b else List.lookup k l := by
  by_cases h : k = a
  · have hb : (k == a) = true := beq_iff_eq.mpr h
    simp [List.lookup, hb, h]
  · have hb : (k == a) = false := beq_eq_false_iff_ne.mpr h
    simp [List.lookup, hb, h]

theorem eraseKey_cons {β : Type} (a : String) (b : β) (l : List (String × β))
    (k : String) :
    eraseKey ((a, b) :: l) k
      = if a = k then eraseKey l k else (a, b) :: eraseKey l k := by
  by_cases h : a = k
  · simp [eraseKey, List.filter_cons, h]
  · simp [eraseKey, List.filter_cons, h]

theorem mapUpdate_cons {β : Type} (a : String) (b : β) (l : List (String × β))
    (k : String) (f : β → β) :
    ((a, b) :: l).map (fun kv => if kv.1 = k then (kv.1, f kv.2) else kv)
      = (if a = k then (a, f b) else (a, b))
          :: l.map (fun kv => if kv.1 = k then (kv.1, f kv.2) else kv) := by
  by_cases h : a = k <;> simp [h]

theorem lookup_eraseKey_self {β : Type} (l : List (String × β)) (k : String) :
    List.lookup k (eraseKey l k) = none := by
  induction l with
  | nil => rfl
  | cons kv rest ih =>
    obtain ⟨a, b⟩ := kv
    by_cases h : a = k
    · rw [eraseKey_cons, if_pos h]
      exact ih
    · rw [eraseKey_cons, if_neg h, lookup_cons, if_neg (fun he => h he.symm)]
      exact ih

theorem lookup_eraseKey_ne {β : Type} (l : List (String × β)) (k k' : String)
    (h : k' ≠ k) : List.lookup k' (eraseKey l k) = List.lookup k' l := by
  induction l with
  | nil => rfl
  | cons kv rest ih =>
    obtain ⟨a, b⟩ := kv
    by_cases hk : a = k
    · have hk' : k' ≠ a := fun he => h (he.trans hk)
      rw [eraseKey_cons, if_pos hk, lookup_cons, if_neg hk']
      exact ih
    · rw [eraseKey_cons, if_neg hk, lookup_cons, lookup_cons]
      by_cases hk' : k' = a
      · rw [if_pos hk', if_pos hk']
      · rw [if_neg hk', if_neg hk']
        exact ih

theorem eraseKey_of_not_mem {β : Type} (l : List (String × β)) (k : String)
    (h : k ∉ l.map Prod.fst) : eraseKey l k = l := by
  induction l with
  | nil => rfl
  | cons kv rest ih =>
    obtain ⟨a, b⟩ := kv
    simp only [List.map_cons, List.mem_cons, not_or] at h
    rw [eraseKey_cons, if_neg (fun he => h.1 he.symm), ih h.2]

theorem lookup_insertKey_ne {β : Type} (l : List (String × β)) (k k' : String)
    (v : β) (h : k' ≠ k) :
    List.lookup k' (insertKey l k v) = List.lookup k' l := by
  rw [insertKey, lookup_cons, if_neg h]
  exact lookup_eraseKey_ne l k k' h

theorem lookup_mapUpdate_ne {β : Type} (l : List (String × β)) (k k' : String)
    (f : β → β) (h : k' ≠ k) :
    List.lookup k' (l.map (fun kv => if kv.1 = k then (kv.1, f kv.2) else kv))
      = List.lookup k' l := by
  induction l with
  | nil => rfl
  | cons kv rest ih =>
    obtain ⟨a, b⟩ := kv
    rw [mapUpdate_cons]
    by_cases hk : a = k
    · have hk' : k' ≠ a := fun he => h (he.trans hk)
      rw [if_pos hk, lookup_cons, if_neg hk', lookup_cons, if_neg hk']
      exact ih
    · rw [if_neg hk, lookup_cons, lookup_cons]
      by_cases hk' : k' = a
      · rw [if_pos hk', if_pos hk']
      · rw [if_neg hk', if_neg hk']
        exact ih

theorem lookup_mapUpdate_self {β : Type} (l : List (String × β)) (k : String)
    (f : β → β) (v : β) (h : List.lookup k l = some v) :
    List.lookup k (l.map (fun kv => if kv.1 = k then (kv.1, f kv.2) else kv))
      = some (f v) := by
  induction l with
  | nil => simp [List.lookup] at h
  | cons kv rest ih =>
    obtain ⟨a, b⟩ := kv
    rw [lookup_cons] at h
    rw [mapUpdate_cons]
    by_cases hk : k = a
    · rw [if_pos hk] at h
      cases h
      rw [if_pos hk.symm, lookup_cons, if_pos hk]
    · rw [if_neg hk] at h
      rw [if_neg (fun he => hk he.symm), lookup_cons, if_neg hk]
      exact ih h

theorem mapUpdate_of_not_mem {β : Type} (l : List (String × β)) (k : String)
    (f : β → β) (h : k ∉ l.map Prod.fst) :
    l.map (fun kv => if kv.1 = k then (kv.1, f kv.2) else kv) = l := by
  induction l with
  | nil => rfl
  | cons kv rest ih =>
    obtain ⟨a, b⟩ := kv
    simp only [List.map_cons, List.mem_cons, not_or] at h
    rw [mapUpdate_cons, if_neg (fun he => h.1 he.symm), ih h.2]

/-! ## C7: cross-thread bridge ordering -/

theorem runOps_concat (ops : List BridgeOp) : ∀ s : BridgeState,
    (runOps s ops).delivered ++ (runOps s ops).asyncQ ++ (runOps s ops).threadQ
      = s.delivered ++ s.asyncQ ++ s.threadQ ++ enqueuedOf ops := by
  induction ops with
  | nil => intro s; simp [runOps, enqueuedOf]
  | cons op rest ih =>
    intro s
    have hstep : runOps s (op :: rest) = runOps (applyOp s op) rest := rfl
    rw [hstep, ih (applyOp s op)]
    cases op with
    | put m => simp [applyOp, enqueuedOf, List.filterMap_cons]
    | bridgeStep =>
      cases h : s.threadQ with
      | nil => simp [applyOp, h, enqueuedOf, List.filterMap_cons]
      | cons m t => simp [applyOp, h, enqueuedOf, List.filterMap_cons]
    | getInput =>
      cases h : s.asyncQ with
      | nil => simp [applyOp, h, enqueuedOf, List.filterMap_cons]
      | cons m t => simp [applyOp, h, enqueuedOf, List.filterMap_cons]

/-- C7: the message bridge is order-preserving per direction.  After any
sequence of bridge events starting from the fresh bridge, the concatenation
of the already-delivered messages, the asyncio input queue and the
thread-safe input queue equals the sequence enqueued by `put_input`, in
order; in particular the delivered messages form a prefix of the enqueued
sequence, so `get_input` yields messages in enqueue order. -/
theorem C7_bridge_fifo (ops : List BridgeOp) :
    (runOps BridgeState.empty ops).delivered ++ (runOps BridgeState.empty ops).asyncQ
        ++ (runOps BridgeState.empty ops).threadQ = enqueuedOf ops
      ∧ ∃ rest, (runOps BridgeState.empty ops).delivered ++ rest = enqueuedOf ops := by
  have h := runOps_concat ops BridgeState.empty
  simp only [BridgeState.empty, List.nil_append] at h
  refine ⟨h, (runOps BridgeState.empty ops).asyncQ ++ (runOps BridgeState.empty ops).threadQ, ?_⟩
  rw [← List.append_assoc]
  exact h

/-! ## C6: random trigger probability -/

/-- C6 counterexample: with `random_probability = 0.0` it is not true that a
cycle never fires for every possible draw — `random.random()` can return
exactly `0.0`, and `0.0 > 0.0` is false, so that cycle fires. -/
theorem C6_counterexample :
    ¬ (∀ draw : ℚ, 0 ≤ draw → draw < 1 → randomCycleFires 0 draw = false) := by
  intro h
  simpa [randomCycleFires] using h 0 le_rfl (by norm_num)

/-- C6 (amended): a random cycle fires exactly when the uniform draw does not
exceed the configured probability; hence with probability `0.0` it fires only
on the draw exactly `0.0` (never on any positive draw), and with probability
`1.0` it fires on every cycle. -/
theorem C6_random_probability (probability draw : ℚ)
    (_h0 : 0 ≤ draw) (h1 : draw < 1) :
    (randomCycleFires probability draw = true ↔ draw ≤ probability)
      ∧ (0 < draw → randomCycleFires 0 draw = false)
      ∧ randomCycleFires 1 draw = true := by
  refine ⟨?_, ?_, ?_⟩
  · by_cases hc : probability < draw
    · simp [randomCycleFires, hc, not_le.mpr hc]
    · simp [randomCycleFires, hc, not_lt.mp hc]
  · intro hd
    simp [randomCycleFires, hd]
  · have : ¬ (1 : ℚ) < draw := by linarith
    simp [randomCycleFires, this]

/-- Witness for C6: at probability `1/2` and draw `1/4`. -/
theorem C6_random_probability_witness :
    ((0 : ℚ) ≤ 1 / 4 ∧ (1 / 4 : ℚ) < 1)
      ∧ ((randomCycleFires (1 / 2) (1 / 4) = true ↔ (1 / 4 : ℚ) ≤ 1 / 2)
        ∧ ((0 : ℚ) < 1 / 4 → randomCycleFires 0 (1 / 4) = false)
        ∧ randomCycleFires 1 (1 / 4) = true) :=
  ⟨⟨by norm_num, by norm_num⟩,
    C6_random_probability (1 / 2) (1 / 4) (by norm_num) (by norm_num)⟩

/-! ## C5: scheduled greeting fires at most once per calendar day -/

/-- C5: a greeting whose `last_triggered` date equals today's date is skipped
(no fire, greeting unchanged) even when the check runs again inside the
±1-minute window; every firing immediately records `last_triggered := now`;
and on a day different from `last_triggered`'s date an enabled greeting
inside the window fires again. -/
theorem C5_scheduled_once_per_day (g : ScheduledGreeting) (now : PyDateTime) :
    (∀ lt, g.last_triggered = some lt → lt.date = now.date →
        scheduledCheckGreeting g now = (false, g))
      ∧ ((scheduledCheckGreeting g now).1 = true →
        (scheduledCheckGreeting g now).2.last_triggered = some now)
      ∧ (g.enabled = true → inTriggerWindow g now = true →
          (∀ lt, g.last_triggered = some lt → lt.date ≠ now.date) →
        (scheduledCheckGreeting g now).1 = true) := by
  refine ⟨?_, ?_, ?_⟩
  · intro lt hlt hdate
    cases he : g.enabled with
    | false => simp [scheduledCheckGreeting, he]
    | true =>
      by_cases hw : inTriggerWindow g now = true
      · simp [scheduledCheckGreeting, he, hw, hlt, hdate]
      · simp [scheduledCheckGreeting, he, hw]
  · intro hfire
    cases he : g.enabled with
    | false => simp [scheduledCheckGreeting, he] at hfire
    | true =>
      by_cases hw : inTriggerWindow g now = true
      · cases hl : g.last_triggered with
        | none => simp [scheduledCheckGreeting, he, hw, hl]
        | some lt =>
          by_cases hd : lt.date = now.date
          · simp [scheduledCheckGreeting, he, hw, hl, hd] at hfire
          · simp [scheduledCheckGreeting, he, hw, hl, hd]
      · simp [scheduledCheckGreeting, he, hw] at hfire
  · intro he hw hnot
    cases hl : g.last_triggered with
    | none => simp [scheduledCheckGreeting, he, hw, hl]
    | some lt => simp [scheduledCheckGreeting, he, hw, hl, hnot lt hl]

/-- Witness for C5: a 09:00 greeting that already fired on day 42 is skipped
when checked again at 09:00 of day 42. -/
theorem C5_scheduled_once_per_day_witness :
    scheduledCheckGreeting
        { time := ⟨9, 0⟩, message_hint := "morning", enabled := true,
          last_triggered := some ⟨42, 9, 0⟩ }
        ⟨42, 9, 0⟩
      = (false,
          { time := ⟨9, 0⟩, message_hint := "morning", enabled := true,
            last_triggered := some ⟨42, 9, 0⟩ }) :=
  (C5_scheduled_once_per_day
      { time := ⟨9, 0⟩, message_hint := "morning", enabled := true,
        last_triggered := some ⟨42, 9, 0⟩ }
      ⟨42, 9, 0⟩).1 ⟨42, 9, 0⟩ rfl rfl

/-! ## C10: the eligibility window never wraps across midnight -/

/-- C10: eligibility is the absolute difference of linear minutes-of-day, so
a firing implies the two minute-of-day values differ by at most one, and the
window never wraps across midnight: a 00:00 greeting is not eligible at
23:59, nor a 23:59 greeting at 00:00. -/
theorem C10_no_midnight_wrap :
    (∀ (g : ScheduledGreeting) (now : PyDateTime),
        (scheduledCheckGreeting g now).1 = true →
        ((minutesOfDay g.time : Int)
            - ((now.hour * 60 + now.minute : Nat) : Int)).natAbs ≤ 1)
      ∧ (scheduledCheckGreeting
            { time := ⟨0, 0⟩, message_hint := "mid", enabled := true,
              last_triggered := none } ⟨5, 23, 59⟩).1 = false
      ∧ (scheduledCheckGreeting
            { time := ⟨23, 59⟩, message_hint := "late", enabled := true,
              last_triggered := none } ⟨6, 0, 0⟩).1 = false := by
  refine ⟨?_, by decide, by decide⟩
  intro g now hfire
  cases he : g.enabled with
  | false => simp [scheduledCheckGreeting, he] at hfire
  | true =>
    by_cases hw : inTriggerWindow g now = true
    · simpa [inTriggerWindow] using hw
    · simp [scheduledCheckGreeting, he, hw] at hfire

/-- Witness for C10: a 09:00 greeting checked at 09:01 fires, and the
minute-of-day difference is within one. -/
theorem C10_no_midnight_wrap_witness :
    (scheduledCheckGreeting
        { time := ⟨9, 0⟩, message_hint := "morning", enabled := true,
          last_triggered := none } ⟨3, 9, 1⟩).1 = true
      ∧ ((minutesOfDay (⟨9, 0⟩ : TimeOfDay) : Int)
          - ((9 * 60 + 1 : Nat) : Int)).natAbs ≤ 1 :=
  ⟨by decide,
    C10_no_midnight_wrap.1
      { time := ⟨9, 0⟩, message_hint := "morning", enabled := true,
        last_triggered := none } ⟨3, 9, 1⟩ (by decide)⟩

/-! ## C4: window-change detection and callback order -/

theorem monitorStep_lastTitle (lastTitle : Option String) (w s : Bool)
    (st : DesktopState) : (monitorStep lastTitle w s st).2.1 = st.window_title := by
  by_cases h : lastTitle ≠ st.window_title
  · simp [monitorStep, h]
  · simp only [not_not] at h
    simp [monitorStep, h]

/-- C4: across two consecutive monitor-loop iterations capturing titles `A`
then `B` (both callbacks registered), differing titles mark the second state
`window_changed = true` with `previous_window = some A` and fire the
window-change callback before the state-change callback; equal titles leave
`window_changed = false` and fire no window-change callback. -/
theorem C4_window_change_detection (last0 : Option String) (A B p1 p2 : String)
    (t1 t2 : Nat) (a1 a2 : Option String) :
    (A ≠ B →
        (monitorStep
            (monitorStep last0 true true (capture_state p1 t1 a1 (some A) last0)).2.1
            true true
            (capture_state p2 t2 a2 (some B)
              (monitorStep last0 true true (capture_state p1 t1 a1 (some A) last0)).2.1)).1.window_changed
            = true
          ∧ (monitorStep
              (monitorStep last0 true true (capture_state p1 t1 a1 (some A) last0)).2.1
              true true
              (capture_state p2 t2 a2 (some B)
                (monitorStep last0 true true (capture_state p1 t1 a1 (some A) last0)).2.1)).1.previous_window
            = some A
          ∧ (monitorStep
              (monitorStep last0 true true (capture_state p1 t1 a1 (some A) last0)).2.1
              true true
              (capture_state p2 t2 a2 (some B)
                (monitorStep last0 true true (capture_state p1 t1 a1 (some A) last0)).2.1)).2.2
            = [MonitorCallback.windowChange, MonitorCallback.stateChange])
      ∧ (A = B →
        (monitorStep
            (monitorStep last0 true true (capture_state p1 t1 a1 (some A) last0)).2.1
            true true
            (capture_state p2 t2 a2 (some B)
              (monitorStep last0 true true (capture_state p1 t1 a1 (some A) last0)).2.1)).1.window_changed
            = false
          ∧ (monitorStep
              (monitorStep last0 true true (capture_state p1 t1 a1 (some A) last0)).2.1
              true true
              (capture_state p2 t2 a2 (some B)
                (monitorStep last0 true true (capture_state p1 t1 a1 (some A) last0)).2.1)).2.2
            = [MonitorCallback.stateChange]) := by
  have h1 : (monitorStep last0 true true (capture_state p1 t1 a1 (some A) last0)).2.1
      = some A := by
    rw [monitorStep_lastTitle]
    rfl
  rw [h1]
  constructor
  · intro hAB
    have hne : (some A : Option String) ≠ (some B : Option String) := by
      simpa using hAB
    simp [monitorStep, capture_state, hne]
  · intro hAB
    subst hAB
    simp [monitorStep, capture_state]

/-- Witness for C4: first capture "A", second capture "B", from an initially
empty remembered title. -/
theorem C4_window_change_detection_witness :
    (monitorStep
        (monitorStep none true true (capture_state "s1.png" 1 none (some "A") none)).2.1
        true true
        (capture_state "s2.png" 2 none (some "B")
          (monitorStep none true true (capture_state "s1.png" 1 none (some "A") none)).2.1)).1.window_changed
        = true
      ∧ (monitorStep
          (monitorStep none true true (capture_state "s1.png" 1 none (some "A") none)).2.1
          true true
          (capture_state "s2.png" 2 none (some "B")
            (monitorStep none true true (capture_state "s1.png" 1 none (some "A") none)).2.1)).1.previous_window
        = some "A"
      ∧ (monitorStep
          (monitorStep none true true (capture_state "s1.png" 1 none (some "A") none)).2.1
          true true
          (capture_state "s2.png" 2 none (some "B")
            (monitorStep none true true (capture_state "s1.png" 1 none (some "A") none)).2.1)).2.2
        = [MonitorCallback.windowChange, MonitorCallback.stateChange] :=
  (C4_window_change_detection none "A" "B" "s1.png" "s2.png" 1 2 none none).1
    (by decide)

/-! ## C8: settings-save validation -/

/-- C8: when the edited `proactive_min_interval` is greater than or equal to
the edited `proactive_max_interval`, `_on_save` shows one warning dialog and
changes nothing else — no config mutation, no `settings_saved` emission, no
callback invocation, not accepted; when min is strictly below max, the full
edited snapshot replaces the stored configuration, the `settings_saved`
signal and the registered callback both receive that same snapshot, and the
dialog is accepted. -/
theorem C8_settings_save_validation (st : SettingsWindowState) (ui : SettingsConfig) :
    (ui.proactive_max_interval ≤ ui.proactive_min_interval →
        on_save st ui = { st with warnings := st.warnings + 1 })
      ∧ (ui.proactive_min_interval < ui.proactive_max_interval →
        (on_save st ui).config = ui
          ∧ (on_save st ui).savedSignals = st.savedSignals ++ [ui]
          ∧ (st.hasCallback = true →
              (on_save st ui).callbackCalls = st.callbackCalls ++ [ui])
          ∧ (st.hasCallback = false →
              (on_save st ui).callbackCalls = st.callbackCalls)
          ∧ (on_save st ui).accepted = true
          ∧ (on_save st ui).warnings = st.warnings) := by
  constructor
  · intro h
    rw [on_save, if_pos h]
  · intro h
    have h' : ¬ ui.proactive_max_interval ≤ ui.proactive_min_interval := not_le.mpr h
    rw [on_save, if_neg h']
    refine ⟨rfl, rfl, ?_, ?_, rfl, rfl⟩
    · intro hcb
      simp [hcb]
    · intro hcb
      simp [hcb]

/-- Witness for C8: a valid snapshot (min 300 < max 900) is saved and
signalled; an invalid one (min 900 ≥ max 900) only bumps the warning count. -/
theorem C8_settings_save_validation_witness :
    ((300 : Nat) < 900 ∧ (900 : Nat) ≤ 900)
      ∧ (on_save
            { config :=
                { ball_size := 64, ball_opacity := 9 / 10, avatar_path := "",
                  window_width := 400, window_height := 600, font_size := 14,
                  enable_desktop_monitor := true, monitor_interval := 60,
                  max_screenshots := 20, screenshot_max_age_hours := 24,
                  enable_proactive_dialog := true, proactive_probability := 3 / 10,
                  proactive_min_interval := 300, proactive_max_interval := 900,
                  window_change_enabled := true, window_change_probability := 1 / 5,
                  scheduled_greetings_enabled := true, enable_tts := true,
                  auto_play_voice := false }
              hasCallback := true }
            { ball_size := 80, ball_opacity := 9 / 10, avatar_path := "",
              window_width := 400, window_height := 600, font_size := 14,
              enable_desktop_monitor := true, monitor_interval := 60,
              max_screenshots := 20, screenshot_max_age_hours := 24,
              enable_proactive_dialog := true, proactive_probability := 3 / 10,
              proactive_min_interval := 300, proactive_max_interval := 900,
              window_change_enabled := true, window_change_probability := 1 / 5,
              scheduled_greetings_enabled := true, enable_tts := true,
              auto_play_voice := false }).config
        = { ball_size := 80, ball_opacity := 9 / 10, avatar_path := "",
            window_width := 400, window_height := 600, font_size := 14,
            enable_desktop_monitor := true, monitor_interval := 60,
            max_screenshots := 20, screenshot_max_age_hours := 24,
            enable_proactive_dialog := true, proactive_probability := 3 / 10,
            proactive_min_interval := 300, proactive_max_interval := 900,
            window_change_enabled := true, window_change_probability := 1 / 5,
            scheduled_greetings_enabled := true, enable_tts := true,
            auto_play_voice := false }
      ∧ on_save
            { config :=
                { ball_size := 64, ball_opacity := 9 / 10, avatar_path := "",
                  window_width := 400, window_height := 600, font_size := 14,
                  enable_desktop_monitor := true, monitor_interval := 60,
                  max_screenshots := 20, screenshot_max_age_hours := 24,
                  enable_proactive_dialog := true, proactive_probability := 3 / 10,
                  proactive_min_interval := 300, proactive_max_interval := 900,
                  window_change_enabled := true, window_change_probability := 1 / 5,
                  scheduled_greetings_enabled := true, enable_tts := true,
                  auto_play_voice := false }
              hasCallback := true }
            { ball_size := 80, ball_opacity := 9 / 10, avatar_path := "",
              window_width := 400, window_height := 600, font_size := 14,
              enable_desktop_monitor := true, monitor_interval := 60,
              max_screenshots := 20, screenshot_max_age_hours := 24,
              enable_proactive_dialog := true, proactive_probability := 3 / 10,
              proactive_min_interval := 900, proactive_max_interval := 900,
              window_change_enabled := true, window_change_probability := 1 / 5,
              scheduled_greetings_enabled := true, enable_tts := true,
              auto_play_voice := false }
        = { config :=
              { ball_size := 64, ball_opacity := 9 / 10, avatar_path := "",
                window_width := 400, window_height := 600, font_size := 14,
                enable_desktop_monitor := true, monitor_interval := 60,
                max_screenshots := 20, screenshot_max_age_hours := 24,
                enable_proactive_dialog := true, proactive_probability := 3 / 10,
                proactive_min_interval := 300, proactive_max_interval := 900,
                window_change_enabled := true, window_change_probability := 1 / 5,
                scheduled_greetings_enabled := true, enable_tts := true,
                auto_play_voice := false }
            hasCallback := true
            warnings := 1 } :=
  ⟨⟨by norm_num, le_rfl⟩,
    ((C8_settings_save_validation _ _).2 (by norm_num)).1,
    (C8_settings_save_validation _ _).1 le_rfl⟩

/-! ## C9: standalone-server send semantics -/

theorem broadcastGo_fst (iter : List (String × Bool)) :
    ∀ (st : StandaloneServerState) (n : Nat),
      (broadcastGo iter st n).1 = n + (iter.filter (fun kv => kv.2)).length := by
  induction iter with
  | nil => intro st n; simp [broadcastGo]
  | cons kv rest ih =>
    intro st n
    obtain ⟨sid, ok⟩ := kv
    cases ok with
    | true =>
      have hred : broadcastGo ((sid, true) :: rest) st n = broadcastGo rest st (n + 1) :=
        rfl
      rw [hred, ih]
      simp [List.filter_cons]
      omega
    | false =>
      have hred : broadcastGo ((sid, false) :: rest) st n
          = broadcastGo rest ⟨eraseKey st.connections sid⟩ n := rfl
      rw [hred, ih]
      simp [List.filter_cons]

theorem broadcastGo_conns_extra (iter : List (String × Bool)) :
    ∀ (k : String) (x : Bool) (c : List (String × Bool)) (n : Nat),
      k ∉ iter.map Prod.fst →
      (broadcastGo iter ⟨(k, x) :: c⟩ n).2.connections
        = (k, x) :: (broadcastGo iter ⟨c⟩ n).2.connections := by
  induction iter with
  | nil => intro k x c n _; rfl
  | cons kv rest ih =>
    intro k x c n hk
    obtain ⟨sid, ok⟩ := kv
    simp only [List.map_cons, List.mem_cons, not_or] at hk
    cases ok with
    | true =>
      have hredL : broadcastGo ((sid, true) :: rest) ⟨(k, x) :: c⟩ n
          = broadcastGo rest ⟨(k, x) :: c⟩ (n + 1) := rfl
      have hredR : broadcastGo ((sid, true) :: rest) ⟨c⟩ n
          = broadcastGo rest ⟨c⟩ (n + 1) := rfl
      rw [hredL, hredR]
      exact ih k x c (n + 1) hk.2
    | false =>
      have he : eraseKey ((k, x) :: c) sid = (k, x) :: eraseKey c sid := by
        rw [eraseKey_cons, if_neg hk.1]
      have hredL : broadcastGo ((sid, false) :: rest) ⟨(k, x) :: c⟩ n
          = broadcastGo rest ⟨eraseKey ((k, x) :: c) sid⟩ n := rfl
      have hredR : broadcastGo ((sid, false) :: rest) ⟨c⟩ n
          = broadcastGo rest ⟨eraseKey c sid⟩ n := rfl
      rw [hredL, hredR, he]
      exact ih k x (eraseKey c sid) n hk.2

theorem broadcastGo_self (l : List (String × Bool)) :
    ∀ n : Nat, (l.map Prod.fst).Nodup →
      (broadcastGo l ⟨l⟩ n).2.connections = l.filter (fun kv => kv.2) := by
  induction l with
  | nil => intro n _; rfl
  | cons kv rest ih =>
    intro n hnd
    obtain ⟨sid, ok⟩ := kv
    simp only [List.map_cons, List.nodup_cons] at hnd
    cases ok with
    | true =>
      have hred : broadcastGo ((sid, true) :: rest) ⟨(sid, true) :: rest⟩ n
          = broadcastGo rest ⟨(sid, true) :: rest⟩ (n + 1) := rfl
      rw [hred, broadcastGo_conns_extra rest sid true rest (n + 1) hnd.1,
        ih (n + 1) hnd.2]
      simp [List.filter_cons]
    | false =>
      have he : eraseKey ((sid, false) :: rest) sid = rest := by
        rw [eraseKey_cons, if_pos rfl]
        exact eraseKey_of_not_mem rest sid hnd.1
      have hred : broadcastGo ((sid, false) :: rest) ⟨(sid, false) :: rest⟩ n
          = broadcastGo rest ⟨eraseKey ((sid, false) :: rest) sid⟩ n := rfl
      rw [hred, he, ih n hnd.2]
      simp [List.filter_cons]

/-- C9 counterexample: for a registered session whose transport send fails,
`send_to_client` returns failure but does NOT deregister the session — the
connection table is unchanged and the session is still registered. -/
theorem C9_counterexample :
    (send_to_client ⟨[("s1", false)]⟩ "s1").1 = false
      ∧ (send_to_client ⟨[("s1", false)]⟩ "s1").2.connections = [("s1", false)]
      ∧ List.lookup "s1" (send_to_client ⟨[("s1", false)]⟩ "s1").2.connections
        = some false := ⟨rfl, rfl, rfl⟩

/-- C9 (amended): in the standalone server, `send_to_client` is best-effort
but does not deregister on failure — it reports the send result and leaves
the connection table untouched; only `broadcast` deregisters every session
whose send fails while continuing through the rest (keeping exactly the
successful sessions and counting them); the session manager's
`send_message`, by contrast, does treat a write failure as proof of
disconnection and deregisters the session. -/
theorem C9_send_semantics :
    (∀ (st : StandaloneServerState) (sid : String) (ok : Bool),
        List.lookup sid st.connections = some ok → send_to_client st sid = (ok, st))
      ∧ (∀ st : StandaloneServerState, (st.connections.map Prod.fst).Nodup →
          (broadcast st).2.connections = st.connections.filter (fun kv => kv.2)
            ∧ (broadcast st).1 = (st.connections.filter (fun kv => kv.2)).length)
      ∧ (∀ (conns : List (String × Bool)) (sid : String),
          List.lookup sid conns = some false →
            send_message_conns conns sid = eraseKey conns sid
              ∧ List.lookup sid (send_message_conns conns sid) = none) := by
  refine ⟨?_, ?_, ?_⟩
  · intro st sid ok h
    simp [send_to_client, h]
  · intro st hnd
    constructor
    · exact broadcastGo_self st.connections 0 hnd
    · have h := broadcastGo_fst st.connections st 0
      simpa [broadcast] using h
  · intro conns sid h
    refine ⟨by simp [send_message_conns, h], ?_⟩
    simp only [send_message_conns, h, if_false]
    exact lookup_eraseKey_self conns sid

/-- Witness for C9: three registered sessions, the middle one failing:
`send_to_client` to it returns failure leaving the table intact, `broadcast`
keeps exactly the two healthy sessions and counts two successes, and the
session manager's `send_message` removes the failing session. -/
theorem C9_send_semantics_witness :
    send_to_client ⟨[("a", true), ("b", false), ("c", true)]⟩ "b"
        = (false, ⟨[("a", true), ("b", false), ("c", true)]⟩)
      ∧ (broadcast ⟨[("a", true), ("b", false), ("c", true)]⟩).2.connections
        = [("a", true), ("c", true)]
      ∧ (broadcast ⟨[("a", true), ("b", false), ("c", true)]⟩).1 = 2
      ∧ send_message_conns [("a", true), ("b", false)] "b" = [("a", true)] :=
  ⟨C9_send_semantics.1 ⟨[("a", true), ("b", false), ("c", true)]⟩ "b" false rfl,
    ((C9_send_semantics.2.1 ⟨[("a", true), ("b", false), ("c", true)]⟩
        (by decide)).1).trans (by decide),
    ((C9_send_semantics.2.1 ⟨[("a", true), ("b", false), ("c", true)]⟩
        (by decide)).2).trans (by decide),
    ((C9_send_semantics.2.2 [("a", true), ("b", false)] "b" rfl).1).trans (by decide)⟩

/-! ## C3: screenshot retention rules -/

theorem insertByMtimeDesc_of_max (f : ScreenshotFile) (l : List ScreenshotFile)
    (h : ∀ g ∈ l, g.mtime ≤ f.mtime) : insertByMtimeDesc f l = f :: l := by
  cases l with
  | nil => rfl
  | cons g gs =>
    have hg : g.mtime ≤ f.mtime := h g (List.mem_cons_self g gs)
    simp only [insertByMtimeDesc]
    rw [if_pos hg]

theorem get_screenshot_files_of_sorted (l : List ScreenshotFile)
    (h : l.Pairwise (fun a b => b.mtime ≤ a.mtime)) :
    get_screenshot_files l = l := by
  induction l with
  | nil => rfl
  | cons f rest ih =>
    rw [List.pairwise_cons] at h
    have h1 : get_screenshot_files (f :: rest)
        = insertByMtimeDesc f (get_screenshot_files rest) := rfl
    rw [h1, ih h.2, insertByMtimeDesc_of_max f rest h.1]

/-- C3: for files listed newest-first with pairwise distinct modification
times and distinct paths, one cleanup pass deletes a file exactly when it
lies beyond the `max_count` newest or its age exceeds `max_age_hours` — the
two rules apply independently; in particular with `max_count = 3`, five
files none of which exceeds the age bound, exactly the two oldest are
removed. -/
theorem C3_cleanup_rules (cfg : ScreenshotStorageConfig)
    (allFiles : List ScreenshotFile) (now : Int)
    (hsorted : allFiles.Pairwise (fun a b => b.mtime < a.mtime))
    (hpaths : (allFiles.map ScreenshotFile.path).Nodup) :
    (∀ f ∈ allFiles,
        (f.path ∈ cleanup_old_screenshots cfg allFiles now ↔
          (f ∈ allFiles.drop cfg.max_count
            ∨ max_age_seconds cfg < now - f.mtime)))
      ∧ (allFiles.length = 5 → cfg.max_count = 3 →
          (∀ f ∈ allFiles, now - f.mtime ≤ max_age_seconds cfg) →
          cleanup_old_screenshots cfg allFiles now
            = (allFiles.drop 3).map ScreenshotFile.path) := by
  have hsorted' : allFiles.Pairwise (fun a b => b.mtime ≤ a.mtime) :=
    hsorted.imp (fun h => le_of_lt h)
  have hfiles : get_screenshot_files allFiles = allFiles :=
    get_screenshot_files_of_sorted allFiles hsorted'
  have hclean : cleanup_old_screenshots cfg allFiles now
      = (allFiles.drop cfg.max_count).map ScreenshotFile.path
        ++ ((allFiles.take cfg.max_count).filter
              (fun f => max_age_seconds cfg < now - f.mtime)).map
            ScreenshotFile.path := by
    unfold cleanup_old_screenshots
    rw [hfiles]
  constructor
  · intro f hf
    rw [hclean]
    constructor
    · intro hmem
      rcases List.mem_append.mp hmem with hdrop | hfilter
      · obtain ⟨g, hg, hgp⟩ := List.mem_map.mp hdrop
        have hgl : g ∈ allFiles := List.drop_subset _ _ hg
        have hfg : g = f := List.inj_on_of_nodup_map hpaths hgl hf hgp
        exact Or.inl (hfg ▸ hg)
      · obtain ⟨g, hg, hgp⟩ := List.mem_map.mp hfilter
        obtain ⟨hgt, hgq⟩ := List.mem_filter.mp hg
        have hgl : g ∈ allFiles := List.take_subset _ _ hgt
        have hfg : g = f := List.inj_on_of_nodup_map hpaths hgl hf hgp
        have hage : max_age_seconds cfg < now - g.mtime := of_decide_eq_true hgq
        exact Or.inr (hfg ▸ hage)
    · intro hcase
      rcases hcase with hdrop | hage
      · exact List.mem_append.mpr (Or.inl (List.mem_map.mpr ⟨f, hdrop, rfl⟩))
      · have hsplit : f ∈ allFiles.take cfg.max_count
            ∨ f ∈ allFiles.drop cfg.max_count := by
          have hmem2 : f ∈ allFiles.take cfg.max_count ++ allFiles.drop cfg.max_count := by
            rw [List.take_append_drop]
            exact hf
          exact List.mem_append.mp hmem2
        rcases hsplit with htake | hdrop2
        · refine List.mem_append.mpr (Or.inr (List.mem_map.mpr ⟨f, ?_, rfl⟩))
          exact List.mem_filter.mpr ⟨htake, decide_eq_true hage⟩
        · exact List.mem_append.mpr (Or.inl (List.mem_map.mpr ⟨f, hdrop2, rfl⟩))
  · intro _ hmc hfresh
    rw [hclean, hmc]
    have hnil : (allFiles.take 3).filter
        (fun f => max_age_seconds cfg < now - f.mtime) = [] := by
      rw [List.filter_eq_nil_iff]
      intro a ha
      have hal : a ∈ allFiles := List.take_subset _ _ ha
      simp only [decide_eq_true_eq]
      exact not_lt.mpr (hfresh a hal)
    rw [hnil]
    simp

/-- Witness for C3: five files newest-first, `max_count = 3`, all within the
24-hour age bound — exactly the two oldest are removed. -/
theorem C3_cleanup_rules_witness :
    cleanup_old_screenshots ⟨3, 24, "./temp/screenshots"⟩
        [⟨"a.png", 100⟩, ⟨"b.png", 90⟩, ⟨"c.png", 80⟩, ⟨"d.png", 70⟩, ⟨"e.png", 60⟩]
        150
      = ["d.png", "e.png"] :=
  ((C3_cleanup_rules ⟨3, 24, "./temp/screenshots"⟩
      [⟨"a.png", 100⟩, ⟨"b.png", 90⟩, ⟨"c.png", 80⟩, ⟨"d.png", 70⟩, ⟨"e.png", 60⟩]
      150 (by decide) (by decide)).2 rfl rfl (by decide)).trans (by decide)

/-! ## C1: screenshot request/response correlation -/

theorem resolveUpdate_cons (a : String) (b : FutureState)
    (l : List (String × FutureState)) (k : String) (r : ScreenshotResponse) :
    ((a, b) :: l).map
        (fun kv => if kv.1 = k then (kv.1, resolveFutureOnce kv.2 r) else kv)
      = (if a = k then (a, resolveFutureOnce b r) else (a, b))
          :: l.map (fun kv => if kv.1 = k then (kv.1, resolveFutureOnce kv.2 r) else kv) := by
  by_cases h : a = k <;> simp [h]

theorem resolveUpdate_of_not_mem (l : List (String × FutureState)) (k : String)
    (r : ScreenshotResponse) (h : k ∉ l.map Prod.fst) :
    l.map (fun kv => if kv.1 = k then (kv.1, resolveFutureOnce kv.2 r) else kv)
      = l := by
  induction l with
  | nil => rfl
  | cons kv rest ih =>
    obtain ⟨a, b⟩ := kv
    simp only [List.map_cons, List.mem_cons, not_or] at h
    rw [resolveUpdate_cons, if_neg (fun he => h.1 he.symm), ih h.2]

theorem lookup_resolveUpdate_ne (l : List (String × FutureState)) (k k' : String)
    (r : ScreenshotResponse) (h : k' ≠ k) :
    List.lookup k'
        (l.map (fun kv => if kv.1 = k then (kv.1, resolveFutureOnce kv.2 r) else kv))
      = List.lookup k' l :=
  lookup_mapUpdate_ne l k k' (fun v => resolveFutureOnce v r) h

theorem lookup_resolveUpdate_self (l : List (String × FutureState)) (k : String)
    (r : ScreenshotResponse) (v : FutureState) (h : List.lookup k l = some v) :
    List.lookup k
        (l.map (fun kv => if kv.1 = k then (kv.1, resolveFutureOnce kv.2 r) else kv))
      = some (resolveFutureOnce v r) :=
  lookup_mapUpdate_self l k (fun v => resolveFutureOnce v r) v h

theorem mapUpdate_resolved_eq (l : List (String × FutureState)) (rid : String)
    (r r0 : ScreenshotResponse) (hnd : (l.map Prod.fst).Nodup)
    (h : List.lookup rid l = some (FutureState.resolved r0)) :
    l.map (fun kv => if kv.1 = rid then (kv.1, resolveFutureOnce kv.2 r) else kv)
      = l := by
  induction l with
  | nil => rfl
  | cons kv rest ih =>
    obtain ⟨a, b⟩ := kv
    simp only [List.map_cons, List.nodup_cons] at hnd
    rw [lookup_cons] at h
    rw [resolveUpdate_cons]
    by_cases hk : rid = a
    · rw [if_pos hk] at h
      cases h
      rw [if_pos hk.symm]
      have hres : resolveFutureOnce (FutureState.resolved r0) r
          = FutureState.resolved r0 := rfl
      rw [hres, resolveUpdate_of_not_mem rest rid r (hk ▸ hnd.1)]
    · rw [if_neg hk] at h
      rw [if_neg (fun he => hk he.symm), ih hnd.2 h]

/-- C1: a screenshot response carrying the `request_id` of a pending request
resolves exactly that pending future with the constructed response (carrying
the response's success flag and image data) and leaves every other pending
entry, the pending-request table and the connection table untouched; a
second response for an already-resolved future leaves the state unchanged
(resolution happens at most once); a response with an unknown `request_id`
is dropped — the handler returns `none` and the state is unchanged. -/
theorem C1_screenshot_response_correlation (st : ClientManagerState)
    (sid rid : String) (data : ScreenshotResponseData) (saveOk : Bool) (nowMs : Nat)
    (hrid : data.request_id = some rid) (hne : rid ≠ "")
    (hnd : (st.screenshot_futures.map Prod.fst).Nodup) :
    (List.lookup rid st.screenshot_futures = some FutureState.unresolved →
        (handle_screenshot_response st sid data saveOk nowMs).1
            = some (builtScreenshotResponse sid rid data saveOk nowMs)
          ∧ List.lookup rid
              (handle_screenshot_response st sid data saveOk nowMs).2.screenshot_futures
            = some (FutureState.resolved
                (builtScreenshotResponse sid rid data saveOk nowMs))
          ∧ (builtScreenshotResponse sid rid data saveOk nowMs).success = data.success
          ∧ (builtScreenshotResponse sid rid data saveOk nowMs).image_base64
            = data.image_base64
          ∧ (∀ rid', rid' ≠ rid →
              List.lookup rid'
                  (handle_screenshot_response st sid data saveOk nowMs).2.screenshot_futures
                = List.lookup rid' st.screenshot_futures)
          ∧ (handle_screenshot_response st sid data saveOk nowMs).2.pending_screenshot_requests
            = st.pending_screenshot_requests
          ∧ (handle_screenshot_response st sid data saveOk nowMs).2.active_connections
            = st.active_connections)
      ∧ (∀ r0, List.lookup rid st.screenshot_futures = some (FutureState.resolved r0) →
          (handle_screenshot_response st sid data saveOk nowMs).2 = st)
      ∧ (List.lookup rid st.screenshot_futures = none →
          handle_screenshot_response st sid data saveOk nowMs = (none, st)) := by
  refine ⟨?_, ?_, ?_⟩
  · intro hu
    have hresult : handle_screenshot_response st sid data saveOk nowMs
        = (some (builtScreenshotResponse sid rid data saveOk nowMs),
            { st with
              screenshot_futures := st.screenshot_futures.map
                (fun kv => if kv.1 = rid then
                    (kv.1, resolveFutureOnce kv.2
                      (builtScreenshotResponse sid rid data saveOk nowMs))
                  else kv) }) := by
      simp [handle_screenshot_response, hrid, hne, hu]
    rw [hresult]
    refine ⟨rfl, ?_, rfl, rfl, ?_, rfl, rfl⟩
    · have h := lookup_resolveUpdate_self st.screenshot_futures rid
        (builtScreenshotResponse sid rid data saveOk nowMs)
        FutureState.unresolved hu
      simpa [resolveFutureOnce] using h
    · intro rid' hne'
      exact lookup_resolveUpdate_ne st.screenshot_futures rid rid'
        (builtScreenshotResponse sid rid data saveOk nowMs) hne'
  · intro r0 hres
    have hn : ¬ (List.lookup rid st.screenshot_futures).isNone = true := by
      rw [hres]
      simp
    simp only [handle_screenshot_response, hrid]
    rw [if_neg hne, if_neg hn,
      mapUpdate_resolved_eq st.screenshot_futures rid _ r0 hnd hres]
  · intro hnone
    simp [handle_screenshot_response, hrid, hne, hnone]

/-- Witness for C1: a pending request `r1` (with `r2` also pending) is
resolved by a successful response carrying inline image data, and `r2` is
unaffected. -/
theorem C1_screenshot_response_correlation_witness :
    (handle_screenshot_response
        ⟨["s"], [], [("r1", FutureState.unresolved), ("r2", FutureState.unresolved)]⟩
        "s" { request_id := some "r1", success := true, image_base64 := some "IMG" }
        true 5).1
      = some (builtScreenshotResponse "s" "r1"
          { request_id := some "r1", success := true, image_base64 := some "IMG" }
          true 5)
      ∧ List.lookup "r1"
          (handle_screenshot_response
            ⟨["s"], [], [("r1", FutureState.unresolved), ("r2", FutureState.unresolved)]⟩
            "s" { request_id := some "r1", success := true, image_base64 := some "IMG" }
            true 5).2.screenshot_futures
        = some (FutureState.resolved
            (builtScreenshotResponse "s" "r1"
              { request_id := some "r1", success := true, image_base64 := some "IMG" }
              true 5))
      ∧ List.lookup "r2"
          (handle_screenshot_response
            ⟨["s"], [], [("r1", FutureState.unresolved), ("r2", FutureState.unresolved)]⟩
            "s" { request_id := some "r1", success := true, image_base64 := some "IMG" }
            true 5).2.screenshot_futures
        = some FutureState.unresolved := by
  have h := C1_screenshot_response_correlation
    ⟨["s"], [], [("r1", FutureState.unresolved), ("r2", FutureState.unresolved)]⟩
    "s" "r1" { request_id := some "r1", success := true, image_base64 := some "IMG" }
    true 5 rfl (by decide) (by decide)
  have ha := h.1 (by decide)
  exact ⟨ha.1, ha.2.1, (ha.2.2.2.2.1 "r2" (by decide)).trans (by decide)⟩

/-! ## C2: request timeout and pending-table cleanup -/

/-- C2: for a request against a connected agent, a timed-out wait yields a
failure response whose error text is the timeout message 「截图请求超时」
("screenshot request timed out"), any other exception yields a failure
response carrying the exception text, and on every outcome the `finally`
cleanup removes the `request_id` from both the pending-request table and
the futures table while leaving every other key's bindings unchanged. -/
theorem C2_request_screenshot_cleanup (st : ClientManagerState)
    (sid rid : String) (created_at timeout : Nat) (sendOk : Bool)
    (outcome : AwaitOutcome)
    (hconn : st.active_connections.contains sid = true) :
    (outcome = AwaitOutcome.timedOut →
        (request_screenshot st (some sid) rid created_at timeout sendOk outcome).1
          = { request_id := rid, session_id := sid, success := false,
              error_message := some "截图请求超时" })
      ∧ (∀ msg, outcome = AwaitOutcome.failed msg →
          (request_screenshot st (some sid) rid created_at timeout sendOk outcome).1
            = { request_id := rid, session_id := sid, success := false,
                error_message := some msg })
      ∧ List.lookup rid
          (request_screenshot st (some sid) rid created_at timeout sendOk
            outcome).2.pending_screenshot_requests = none
      ∧ List.lookup rid
          (request_screenshot st (some sid) rid created_at timeout sendOk
            outcome).2.screenshot_futures = none
      ∧ (∀ rid', rid' ≠ rid →
          List.lookup rid'
              (request_screenshot st (some sid) rid created_at timeout sendOk
                outcome).2.pending_screenshot_requests
            = List.lookup rid' st.pending_screenshot_requests
          ∧ List.lookup rid'
              (request_screenshot st (some sid) rid created_at timeout sendOk
                outcome).2.screenshot_futures
            = List.lookup rid' st.screenshot_futures) := by
  have hmem : sid ∈ st.active_connections := by
    simpa using hconn
  refine ⟨?_, ?_, ?_, ?_, ?_⟩
  · intro hout
    subst hout
    cases sendOk <;> simp [request_screenshot, requestScreenshotGo, hconn, hmem]
  · intro msg hout
    subst hout
    cases sendOk <;> simp [request_screenshot, requestScreenshotGo, hconn, hmem]
  · cases sendOk <;>
      simp [request_screenshot, requestScreenshotGo, hconn, hmem, lookup_eraseKey_self]
  · cases sendOk <;>
      simp [request_screenshot, requestScreenshotGo, hconn, hmem, lookup_eraseKey_self]
  · intro rid' hner
    cases sendOk <;>
      constructor <;>
        simp [request_screenshot, requestScreenshotGo, hconn, hmem,
          lookup_eraseKey_ne _ _ _ hner, lookup_insertKey_ne _ _ _ _ hner]

/-- Witness for C2: a connected agent `"agent"` that never responds — the
returned response is the timeout failure and the pending bookkeeping for
the request id is gone. -/
theorem C2_request_screenshot_cleanup_witness :
    (request_screenshot ⟨["agent"], [], []⟩ (some "agent") "rid1" 0 30 true
        AwaitOutcome.timedOut).1
      = { request_id := "rid1", session_id := "agent", success := false,
          error_message := some "截图请求超时" }
      ∧ List.lookup "rid1"
          (request_screenshot ⟨["agent"], [], []⟩ (some "agent") "rid1" 0 30 true
            AwaitOutcome.timedOut).2.pending_screenshot_requests = none
      ∧ List.lookup "rid1"
          (request_screenshot ⟨["agent"], [], []⟩ (some "agent") "rid1" 0 30 true
            AwaitOutcome.timedOut).2.screenshot_futures = none := by
  have h := C2_request_screenshot_cleanup ⟨["agent"], [], []⟩ "agent" "rid1" 0 30
    true AwaitOutcome.timedOut (by decide)
  exact ⟨h.1 rfl, h.2.2.1, h.2.2.2.1⟩

end DesktopAssistant
